import Mathlib

/-!
Shallow embedding of the stripe-backend checkout service (src/index.js,
the current revision: the first copy in the file).  JavaScript numbers are
modelled as exact rationals, JavaScript `undefined` as `Option.none`, and
the Supabase/Postgres order ledger with its unique index on
`stripe_session_id` as a list of rows whose insert operation atomically
refuses a duplicate key.
-/

namespace StripeBackend

/-- JS `Math.round`: rounds half towards positive infinity. -/
def jsRound (q : ℚ) : ℤ := (q + 1/2).floor

/-- Rounding half away from zero, the convention named by the spec. -/
def halfAwayFromZero (q : ℚ) : ℤ :=
  if 0 ≤ q then (q + 1/2).floor else -((-q + 1/2).floor)

/-- JS truthiness of an optional string: `undefined` and `""` are falsy. -/
def strTruthy : Option String → Bool
  | none => false
  | some s => !s.isEmpty

/-- JS `a || b` on optional strings (falsy values fall through). -/
def jsOr (a b : Option String) : Option String := if strTruthy a then a else b

/-- JS `a || d` where `d` is a (truthy) string literal default. -/
def jsOrD (a : Option String) (d : String) : String :=
  if strTruthy a then a.getD d else d

/-- Helper for JS `String.includes`: does `pat` start the list? -/
def beginsWith : List Char → List Char → Bool
  | _, [] => true
  | [], _ :: _ => false
  | c :: cs, d :: ds => c == d && beginsWith cs ds

/-- Helper for JS `String.includes`: does `pat` occur somewhere in the list? -/
def containsSub (pat : List Char) : List Char → Bool
  | [] => beginsWith [] pat
  | c :: cs => beginsWith (c :: cs) pat || containsSub pat cs

/-- JS `s.includes(pat)`. -/
def jsIncludes (s pat : String) : Bool := containsSub pat.toList s.toList

/-- JS `s.toLowerCase()`: lowercases character by character. -/
def jsToLower (s : String) : String := ⟨s.data.map Char.toLower⟩

/-- Product row joined into a cart line (`product:product_id(...)` select). -/
structure Product where
  id : Option String
  name : Option String
  brand : Option String
  price : Option ℚ
  image_urls : Option (List String)
  deriving Repr, DecidableEq

/-- Cart row: owner columns used by the `.eq` filters plus the selected
columns `quantity, size, product`. -/
structure CartItem where
  owner_user : Option String
  owner_session : Option String
  quantity : Option Nat
  size : Option String
  product : Option Product
  deriving Repr, DecidableEq

/-- JS `Number(it.product?.price || 0)`: the effective base (MXN) price. -/
def itemPrice (it : CartItem) : ℚ :=
  match it.product with
  | none => 0
  | some p => p.price.getD 0

/-- JS `it.quantity || 1`: missing or zero quantity defaults to 1. -/
def jsQty : Option Nat → Nat
  | none => 1
  | some 0 => 1
  | some (n + 1) => n + 1

/-- Failure raised by the line-item builder when the effective price is
falsy (src/index.js line 87). -/
inductive PriceError where
  | invalidPrice (productId : Option String)
  deriving Repr, DecidableEq

/-- Gateway line item as far as the embedded claims need it. -/
structure LineItem where
  quantity : Nat
  currency : String
  unit_amount : ℤ
  deriving Repr, DecidableEq

/-- Translation of the per-item pricing in /create-checkout-session
(src/index.js lines 84-106): effective base price, falsiness check,
`Math.round` conversion to minor units of the requested currency. -/
def buildLineItem (curr : String) (rate : ℚ) (it : CartItem) :
    Except PriceError LineItem :=
  let priceMXN := itemPrice it
  if priceMXN == 0 then
    .error (.invalidPrice (it.product.bind fun p => p.id))
  else
    .ok { quantity := jsQty it.quantity
          currency := curr
          unit_amount :=
            if curr == "mxn" then jsRound (priceMXN * 100)
            else jsRound ((priceMXN / rate) * 100) }

/-- Cart line holding just a priced product, used to state pricing claims. -/
def lineOf (price : ℚ) : CartItem :=
  { owner_user := none
    owner_session := none
    quantity := some 1
    size := none
    product := some
      { id := none, name := none, brand := none
        price := some price, image_urls := none } }

/-- Postal address as Stripe reports it; every field may be absent. -/
structure Address where
  line1 : Option String
  line2 : Option String
  postal_code : Option String
  city : Option String
  state : Option String
  country : Option String
  deriving Repr, DecidableEq

/-- Stripe `customer_details`. -/
structure CustomerDetails where
  name : Option String
  address : Option Address
  deriving Repr, DecidableEq

/-- Stripe `shipping_details`. -/
structure ShippingDetails where
  name : Option String
  address : Option Address
  deriving Repr, DecidableEq

/-- Session metadata echoed back from creation; fields may be absent. -/
structure SessionMetadata where
  ownerType : Option String
  ownerId : Option String
  currency : Option String
  deriving Repr, DecidableEq

/-- Checkout session as retrieved from the gateway. -/
structure StripeSession where
  id : String
  payment_status : String
  currency : Option String
  metadata : Option SessionMetadata
  customer_details : Option CustomerDetails
  shipping_details : Option ShippingDetails
  deriving Repr, DecidableEq

/-- JS `session.metadata?.ownerType`. -/
def ownerTypeOf (sess : StripeSession) : Option String :=
  sess.metadata.bind fun m => m.ownerType

/-- JS `session.metadata?.ownerId`. -/
def ownerIdOf (sess : StripeSession) : Option String :=
  sess.metadata.bind fun m => m.ownerId

/-- JS `(session.metadata?.currency || session.currency || "mxn").toLowerCase()`
(src/index.js line 156). -/
def currencyOf (sess : StripeSession) : String :=
  jsToLower (jsOrD (jsOr (sess.metadata.bind fun m => m.currency) sess.currency) "mxn")

/-- JS `[a, b].filter(Boolean).join(sep)` over possibly absent strings. -/
def jsJoin (sep : String) (parts : List (Option String)) : String :=
  String.intercalate sep ((parts.filterMap id).filter fun s => !s.isEmpty)

/-- Address with every field absent: the `{}` fallback of line 193. -/
def emptyAddress : Address :=
  { line1 := none, line2 := none, postal_code := none
    city := none, state := none, country := none }

/-- Translation of the `ship_to` text assembly (src/index.js lines 189-201). -/
def shipToText (sess : StripeSession) : String :=
  let customer := sess.customer_details
  let shipping := sess.shipping_details
  let addr :=
    (Option.orElse (shipping.bind fun s => s.address)
      (fun _ => customer.bind fun c => c.address)).getD emptyAddress
  let nm := (jsOrD (jsOr (shipping.bind fun s => s.name)
      (customer.bind fun c => c.name)) "").trim
  jsJoin ", "
    [ some nm
    , some (jsJoin " " [addr.line1, addr.line2])
    , some (jsJoin " " [addr.postal_code, addr.city])
    , some (jsJoin " " [addr.state, addr.country]) ]

/-- Denormalized line-item snapshot stored on the order (lines 217-225). -/
structure ItemSnapshot where
  product_id : Option String
  name : Option String
  brand : Option String
  price : Option ℚ
  quantity : Option Nat
  size : Option String
  image : Option String
  deriving Repr, DecidableEq

/-- Translation of the per-line snapshot map in the insert (lines 217-225);
`c.product?.image_urls?.[0] || null` maps an empty first url to null. -/
def snapshotItem (c : CartItem) : ItemSnapshot :=
  { product_id := c.product.bind fun p => p.id
    name := c.product.bind fun p => p.name
    brand := c.product.bind fun p => p.brand
    price := c.product.bind fun p => p.price
    quantity := c.quantity
    size := c.size
    image :=
      match c.product.bind fun p => p.image_urls with
      | some (u :: _) => if u.isEmpty then none else some u
      | _ => none }

/-- Order ledger row (the insert payload of lines 204-229 plus the id). -/
structure OrderRow where
  id : Nat
  user_id : Option String
  session_id : Option String
  stripe_session_id : String
  currency : String
  amount : ℚ
  status : String
  customer : Option CustomerDetails
  shipping : Option ShippingDetails
  ship_to : String
  items : List ItemSnapshot
  deriving Repr, DecidableEq

/-- Datastore state: order ledger, cart store, and the id sequence. -/
structure DB where
  orders : List OrderRow
  cart : List CartItem
  nextId : Nat
  deriving Repr, DecidableEq

/-- The idempotency query (lines 163-167): first order with the session id. -/
def findOrder (orders : List OrderRow) (sid : String) : Option OrderRow :=
  orders.find? fun o => o.stripe_session_id == sid

/-- Cart read filtered by owner (lines 174-179): the `user` owner kind uses
the `user_id` column, any other owner kind the `session_id` column. -/
def readCart (cart : List CartItem) (oType oId : String) : List CartItem :=
  cart.filter fun c =>
    if oType == "user" then c.owner_user == some oId
    else c.owner_session == some oId

/-- Cart deletion filtered by owner (lines 240-242): keeps the other rows. -/
def clearCart (cart : List CartItem) (oType oId : String) : List CartItem :=
  cart.filter fun c =>
    !(if oType == "user" then c.owner_user == some oId
      else c.owner_session == some oId)

/-- Postgres message produced by a violation of the unique index. -/
def dupKeyMsg : String :=
  "duplicate key value violates unique constraint \"orders_stripe_session_id_key\""

/-- Modelled from the spec: the Order Ledger insert with the uniqueness
constraint on `stripe_session_id` (the index itself lives in the database
schema, outside src/; the spec states it as the sole concurrency guarantee).
The insert is atomic: it refuses a row whose `stripe_session_id` is already
present, reporting the duplicate-key message, and otherwise appends the row
under a fresh id (the source reads that id back from the inserted row). -/
def insertOrder (db : DB) (o : OrderRow) : Except String (DB × Nat) :=
  if db.orders.any (fun r => r.stripe_session_id == o.stripe_session_id) then
    .error dupKeyMsg
  else
    .ok ({ orders := db.orders ++ [{ o with id := db.nextId }]
           cart := db.cart
           nextId := db.nextId + 1 }, db.nextId)

/-- JS total of step 5 (lines 184-187): reduce of price times quantity. -/
def amountOf (lines : List CartItem) : ℚ :=
  lines.foldl (fun acc it => acc + itemPrice it * ((jsQty it.quantity : Nat) : ℚ)) 0

/-- The order insert payload of lines 204-229 (id filled in by the ledger). -/
def buildOrderRow (sess : StripeSession) (lines : List CartItem) : OrderRow :=
  let oType := (ownerTypeOf sess).getD ""
  let oId := (ownerIdOf sess).getD ""
  { id := 0
    user_id := if oType == "user" then some oId else none
    session_id := if oType == "session" then some oId else none
    stripe_session_id := sess.id
    currency := currencyOf sess
    amount := amountOf lines
    status := "paid"
    customer := sess.customer_details
    shipping := sess.shipping_details
    ship_to := shipToText sess
    items := lines.map snapshotItem }

/-- JS `(orderErr.message || "").toLowerCase()` followed by the three
`includes` checks of line 233. -/
def isDupMsg (msg : String) : Bool :=
  let m := jsToLower msg
  jsIncludes m "duplicate key" || jsIncludes m "uniq" || jsIncludes m "unique"

/-- Outcome of the gateway retrieve for the posted session id.  A rejected
id and an unreachable gateway both surface as a rejected promise; the
source catches either in the same handler (lines 245-248). -/
inductive GatewayResult where
  | found (sess : StripeSession)
  | rejectedId
  | unreachable
  deriving Repr, DecidableEq

/-- Request environment of one /confirm-order call: the posted body and the
behaviour of the external collaborators during this call.  The two fault
fields inject a Supabase error object (its message) into the cart read or
the insert, to model failures unrelated to the unique constraint. -/
structure Env where
  body_session_id : Option String
  gateway : GatewayResult
  cartReadFault : Option String
  insertFault : Option String
  deriving Repr, DecidableEq

/-- Externally visible side effects of one confirm call, in order. -/
inductive Effect where
  | gatewayRetrieve (sid : String)
  | ordersQuery (sid : String)
  | cartRead (oType oId : String)
  | orderInsert (sid : String)
  | cartDelete (oType oId : String)
  deriving Repr, DecidableEq

/-- Responses of /confirm-order, one constructor per return site. -/
inductive ConfirmResult where
  | missingSessionId
  | internalError
  | notPaid (observed : String)
  | missingOwnerMetadata
  | alreadyProcessed (orderId : Nat)
  | raceLost
  | dbError (msg : String)
  | created (orderId : Nat)
  deriving Repr, DecidableEq

/-- HTTP status attached to each return site of /confirm-order. -/
def httpStatus : ConfirmResult → Nat
  | .missingSessionId => 400
  | .internalError => 500
  | .notPaid _ => 400
  | .missingOwnerMetadata => 400
  | .alreadyProcessed _ => 200
  | .raceLost => 200
  | .dbError _ => 500
  | .created _ => 200

/-- The `orderId` field of the JSON response, when present. -/
def orderIdOf : ConfirmResult → Option Nat
  | .alreadyProcessed i => some i
  | .created i => some i
  | _ => none

/-- The `alreadyProcessed: true` flag of the JSON response. -/
def alreadyProcessedFlag : ConfirmResult → Bool
  | .alreadyProcessed _ => true
  | .raceLost => true
  | _ => false

/-- Translation of the whole /confirm-order handler (src/index.js lines
137-249) as one sequential call: result, final datastore state, and the
ordered list of external effects it performed. -/
def confirmOne (env : Env) (db : DB) : ConfirmResult × DB × List Effect :=
  if !strTruthy env.body_session_id then (.missingSessionId, db, [])
  else
    let sid0 := env.body_session_id.getD ""
    match env.gateway with
    | .rejectedId => (.internalError, db, [.gatewayRetrieve sid0])
    | .unreachable => (.internalError, db, [.gatewayRetrieve sid0])
    | .found sess =>
      let eff0 : List Effect := [.gatewayRetrieve sid0]
      if sess.payment_status != "paid" then
        (.notPaid sess.payment_status, db, eff0)
      else if !(strTruthy (ownerTypeOf sess) && strTruthy (ownerIdOf sess)) then
        (.missingOwnerMetadata, db, eff0)
      else
        let oType := (ownerTypeOf sess).getD ""
        let oId := (ownerIdOf sess).getD ""
        let eff1 := eff0 ++ [Effect.ordersQuery sess.id]
        match findOrder db.orders sess.id with
        | some existing => (.alreadyProcessed existing.id, db, eff1)
        | none =>
          let eff2 := eff1 ++ [Effect.cartRead oType oId]
          match env.cartReadFault with
          | some m => (.dbError m, db, eff2)
          | none =>
            let cartItems := readCart db.cart oType oId
            let row := buildOrderRow sess cartItems
            let eff3 := eff2 ++ [Effect.orderInsert sess.id]
            match env.insertFault with
            | some m =>
              if isDupMsg m then (.raceLost, db, eff3) else (.dbError m, db, eff3)
            | none =>
              match insertOrder db row with
              | .error m =>
                if isDupMsg m then (.raceLost, db, eff3) else (.dbError m, db, eff3)
              | .ok (db1, oid) =>
                (.created oid,
                 { db1 with cart := clearCart db1.cart oType oId },
                 eff3 ++ [Effect.cartDelete oType oId])

/-- Control state of one in-flight confirm call in the interleaved model.
The pre-datastore phase (retrieve, paid check, metadata check) is `start`;
the remaining states sit just before each atomic datastore operation. -/
inductive TState where
  | start
  | checking
  | reading
  | inserting (snapshot : List CartItem)
  | clearing (oid : Nat)
  | done (r : ConfirmResult)
  deriving Repr, DecidableEq

/-- One atomic step of a confirm call for session `sess` against the shared
datastore: each constructor performs exactly one of the operations of the
handler (lines 148-244), so arbitrary interleavings of such steps model
concurrent confirmations racing through the same datastore. -/
def tstep (sess : StripeSession) (db : DB) : TState → TState × DB
  | .start =>
    if sess.payment_status != "paid" then
      (.done (.notPaid sess.payment_status), db)
    else if !(strTruthy (ownerTypeOf sess) && strTruthy (ownerIdOf sess)) then
      (.done .missingOwnerMetadata, db)
    else (.checking, db)
  | .checking =>
    match findOrder db.orders sess.id with
    | some o => (.done (.alreadyProcessed o.id), db)
    | none => (.reading, db)
  | .reading =>
    (.inserting (readCart db.cart ((ownerTypeOf sess).getD "") ((ownerIdOf sess).getD "")), db)
  | .inserting snap =>
    match insertOrder db (buildOrderRow sess snap) with
    | .error m =>
      if isDupMsg m then (.done .raceLost, db) else (.done (.dbError m), db)
    | .ok (db1, oid) => (.clearing oid, db1)
  | .clearing oid =>
    (.done (.created oid),
     { db with cart := clearCart db.cart ((ownerTypeOf sess).getD "") ((ownerIdOf sess).getD "") })
  | .done r => (.done r, db)

/-- Step thread `i` of the pool (out-of-range indices are a no-op). -/
def stepThread (sess : StripeSession) (db : DB) (ts : List TState) (i : Nat) :
    List TState × DB :=
  match ts.get? i with
  | none => (ts, db)
  | some t =>
    let s := tstep sess db t
    (ts.set i s.1, s.2)

/-- Run a pool of confirm calls for the same session under a schedule: the
schedule names, step by step, which thread performs its next atomic action. -/
def run (sess : StripeSession) : List Nat → List TState × DB → List TState × DB
  | [], s => s
  | i :: rest, s => run sess rest (stepThread sess s.2 s.1 i)

/-- Number of ledger rows carrying a given stripe session id. -/
def ordersFor (orders : List OrderRow) (sid : String) : Nat :=
  orders.countP fun o => o.stripe_session_id == sid

/-- Order ids returned by the finished calls of a pool. -/
def returnedIds (ts : List TState) : List Nat :=
  ts.filterMap fun t =>
    match t with
    | .done r => orderIdOf r
    | _ => none

/-- Coherence of one thread with the ledger: any order id the thread holds
(about to clear the cart, or already returned) names a ledger row carrying
the id of the confirmed session. -/
def ThreadOK (sess : StripeSession) (db : DB) : TState → Prop
  | .clearing oid =>
      ∃ o ∈ db.orders, o.stripe_session_id = sess.id ∧ o.id = oid
  | .done r =>
      ∀ k, orderIdOf r = some k →
        ∃ o ∈ db.orders, o.stripe_session_id = sess.id ∧ o.id = k
  | _ => True

/-- Pool invariant: at most one ledger row for the session, and every
thread coherent with the ledger. -/
def Inv (sess : StripeSession) (db : DB) (ts : List TState) : Prop :=
  ordersFor db.orders sess.id ≤ 1 ∧ ∀ t ∈ ts, ThreadOK sess db t

/-! Concrete fixtures used by witnesses and counterexamples. -/

/-- Datastore with an empty ledger and an empty cart store. -/
def emptyDb : DB := { orders := [], cart := [], nextId := 1 }

/-- Unpaid session fixture. -/
def w5sess : StripeSession :=
  { id := "cs_w5", payment_status := "unpaid", currency := none
    metadata := none, customer_details := none, shipping_details := none }

/-- Environment fixture delivering the unpaid session. -/
def w5env : Env :=
  { body_session_id := some "cs_w5", gateway := .found w5sess
    cartReadFault := none, insertFault := none }

/-- Paid session fixture with full owner metadata, owned by user u1. -/
def wPaidSess : StripeSession :=
  { id := "cs_paid", payment_status := "paid", currency := some "mxn"
    metadata := some { ownerType := some "user", ownerId := some "u1"
                       currency := some "mxn" }
    customer_details := none, shipping_details := none }

/-- Environment fixture delivering the paid session. -/
def wPaidEnv : Env :=
  { body_session_id := some "cs_paid", gateway := .found wPaidSess
    cartReadFault := none, insertFault := none }

/-- Ledger row fixture: an order already recorded for `cs_paid`. -/
def wOrderRow : OrderRow :=
  { id := 7, user_id := some "u1", session_id := none
    stripe_session_id := "cs_paid", currency := "mxn", amount := 130
    status := "paid", customer := none, shipping := none, ship_to := ""
    items := [] }

/-- Datastore fixture already holding the order for `cs_paid`. -/
def wDbExisting : DB := { orders := [wOrderRow], cart := [], nextId := 8 }

/-- Environment fixture whose gateway rejects the posted id. -/
def wRejectEnv : Env :=
  { body_session_id := some "cs_gone", gateway := .rejectedId
    cartReadFault := none, insertFault := none }

/-- Environment fixture whose gateway is unreachable. -/
def wDownEnv : Env :=
  { body_session_id := some "cs_gone", gateway := .unreachable
    cartReadFault := none, insertFault := none }

/-- Paid session fixture whose metadata has owner fields but no currency,
while the gateway reports the session currency `usd`. -/
def w10sess : StripeSession :=
  { id := "cs_nocur", payment_status := "paid", currency := some "usd"
    metadata := some { ownerType := some "user", ownerId := some "u1"
                       currency := none }
    customer_details := none, shipping_details := none }

/-- Environment fixture delivering the no-metadata-currency session. -/
def w10env : Env :=
  { body_session_id := some "cs_nocur", gateway := .found w10sess
    cartReadFault := none, insertFault := none }

/-- Cart line fixture: two units of a 50-peso product owned by user u1. -/
def w8item1 : CartItem :=
  { owner_user := some "u1", owner_session := none, quantity := some 2
    size := none
    product := some { id := some "p1", name := some "A", brand := none
                      price := some 50, image_urls := none } }

/-- Cart line fixture: one unit of a 30-peso product owned by user u1. -/
def w8item2 : CartItem :=
  { owner_user := some "u1", owner_session := none, quantity := some 1
    size := none
    product := some { id := some "p2", name := some "B", brand := none
                      price := some 30, image_urls := none } }

/-- Datastore fixture: empty ledger, user u1 owns the two lines above. -/
def w8db : DB := { orders := [], cart := [w8item1, w8item2], nextId := 1 }

/-! Supporting lemmas. -/

/-- On non-negative inputs, JS `Math.round` is half-away-from-zero. -/
theorem halfAway_nonneg (q : ℚ) (h : 0 ≤ q) : halfAwayFromZero q = jsRound q := by
  unfold halfAwayFromZero jsRound
  rw [if_pos h]

/-- The executable rational floor agrees with the mathematical floor. -/
theorem ratFloor_eq_intFloor (q : ℚ) : q.floor = ⌊q⌋ := by
  rw [Rat.floor_def', Rat.floor_def]

/-- Truthiness of a present string reduces to its non-emptiness. -/
theorem strTruthy_some (s : String) : strTruthy (some s) = !s.isEmpty := rfl

/-- The order row built for a session carries the id of that session. -/
theorem buildOrderRow_sid (sess : StripeSession) (lines : List CartItem) :
    (buildOrderRow sess lines).stripe_session_id = sess.id := rfl

/-- When the idempotency query finds nothing, no ledger row carries the
session id, so the uniqueness test of the insert comes back false. -/
theorem findOrder_none_any (orders : List OrderRow) (sid : String)
    (h : findOrder orders sid = none) :
    (orders.any fun r => r.stripe_session_id == sid) = false := by
  rw [List.any_eq_false]
  intro r hr
  have := List.find?_eq_none.mp h r hr
  simpa using this

/-- Happy path of /confirm-order: paid session, owner metadata present, no
existing order, no injected faults.  The handler inserts the built order
under the next ledger id, clears the cart of the owner, and reports creation. -/
theorem confirmOne_created_eq (env : Env) (db : DB) (sid : String)
    (sess : StripeSession)
    (hb : env.body_session_id = some sid) (hne : sid.isEmpty = false)
    (hg : env.gateway = .found sess) (hp : sess.payment_status = "paid")
    (hot : strTruthy (ownerTypeOf sess) = true)
    (hoi : strTruthy (ownerIdOf sess) = true)
    (hf : findOrder db.orders sess.id = none)
    (hcf : env.cartReadFault = none) (hif : env.insertFault = none) :
    confirmOne env db
      = (.created db.nextId,
         { orders := db.orders
             ++ [{ buildOrderRow sess
                     (readCart db.cart ((ownerTypeOf sess).getD "")
                       ((ownerIdOf sess).getD "")) with id := db.nextId }]
           cart := clearCart db.cart ((ownerTypeOf sess).getD "")
                     ((ownerIdOf sess).getD "")
           nextId := db.nextId + 1 },
         [.gatewayRetrieve sid, .ordersQuery sess.id,
          .cartRead ((ownerTypeOf sess).getD "") ((ownerIdOf sess).getD ""),
          .orderInsert sess.id,
          .cartDelete ((ownerTypeOf sess).getD "") ((ownerIdOf sess).getD "")]) := by
  have hany := findOrder_none_any db.orders sess.id hf
  simp [confirmOne, hb, hg, strTruthy_some, hne, hp, hot, hoi, hf, hcf, hif,
    insertOrder, buildOrderRow_sid, hany]

/-- A left fold of additions is the sum of the mapped list. -/
theorem foldl_add_eq_sum {α : Type} (g : α → ℚ) (L : List α) :
    ∀ a : ℚ, L.foldl (fun acc it => acc + g it) a = a + (L.map g).sum := by
  induction L with
  | nil => intro a; simp
  | cons x xs ih =>
    intro a
    simp [List.foldl_cons, ih (a + g x), add_assoc]

/-- The JS reduce of step 5 computes the sum of price times quantity. -/
theorem amountOf_eq_sum (L : List CartItem) :
    amountOf L
      = (L.map fun it => itemPrice it * ((jsQty it.quantity : Nat) : ℚ)).sum := by
  simpa using foldl_add_eq_sum (fun it => itemPrice it * ((jsQty it.quantity : Nat) : ℚ)) L 0

/-- For a present positive quantity, the JS default does not kick in. -/
theorem jsQty_getD {q : Option Nat} (h : q.getD 0 ≠ 0) : jsQty q = q.getD 1 := by
  match q with
  | none => simp at h
  | some 0 => simp at h
  | some (n + 1) => rfl

/-- Anatomy of a successful ledger insert: the uniqueness test was false,
the row was appended under the next id, and that id was returned. -/
theorem insertOrder_ok_orders (db : DB) (o : OrderRow) (db1 : DB) (k : Nat)
    (h : insertOrder db o = .ok (db1, k)) :
    db1.orders = db.orders ++ [{ o with id := db.nextId }] ∧ k = db.nextId
    ∧ (db.orders.any fun r => r.stripe_session_id == o.stripe_session_id)
        = false := by
  unfold insertOrder at h
  split at h
  · simp at h
  · next hcond =>
    cases h
    exact ⟨rfl, rfl, by simpa using hcond⟩

/-- A successful insert keeps the per-session row count at most one: it
only goes through when no row with the inserted id exists. -/
theorem insertOrder_count_le (db : DB) (o : OrderRow) (sid : String)
    (db1 : DB) (k : Nat) (h : ordersFor db.orders sid ≤ 1)
    (hok : insertOrder db o = .ok (db1, k)) :
    ordersFor db1.orders sid ≤ 1 := by
  obtain ⟨horders, -, hany⟩ := insertOrder_ok_orders db o db1 k hok
  unfold ordersFor at h ⊢
  rw [horders, List.countP_append]
  by_cases hsid : o.stripe_session_id = sid
  · have h0 : db.orders.countP (fun r => r.stripe_session_id == sid) = 0 := by
      rw [List.countP_eq_zero]
      intro r hr
      have hner := List.any_eq_false.mp hany r hr
      simp only [beq_iff_eq] at hner ⊢
      rw [← hsid]
      exact hner
    have h1 : List.countP (fun r => r.stripe_session_id == sid)
        [{ o with id := db.nextId }] ≤ 1 := by
      simp only [List.countP_cons, List.countP_nil]
      split <;> omega
    omega
  · have h1 : List.countP (fun r => r.stripe_session_id == sid)
        [{ o with id := db.nextId }] = 0 := by
      simp [List.countP_cons, List.countP_nil, hsid]
    omega

/-- One atomic step keeps the per-session ledger row count at most one. -/
theorem tstep_count_le (sess : StripeSession) (db : DB) (t : TState)
    (h : ordersFor db.orders sess.id ≤ 1) :
    ordersFor (tstep sess db t).2.orders sess.id ≤ 1 := by
  cases t with
  | start =>
    simp only [tstep]
    split
    · exact h
    · split
      · exact h
      · exact h
  | checking =>
    simp only [tstep]
    split
    · exact h
    · exact h
  | reading => exact h
  | inserting snap =>
    simp only [tstep]
    split
    · split
      · exact h
      · exact h
    · next db1 oid heq => exact insertOrder_count_le db _ sess.id db1 oid h heq
  | clearing oid => exact h
  | done r => exact h

/-- Stepping any one thread keeps the row count at most one. -/
theorem stepThread_count_le (sess : StripeSession) (db : DB)
    (ts : List TState) (i : Nat) (h : ordersFor db.orders sess.id ≤ 1) :
    ordersFor (stepThread sess db ts i).2.orders sess.id ≤ 1 := by
  unfold stepThread
  split
  · exact h
  · exact tstep_count_le sess db _ h

/-- Any interleaving of any pool keeps the row count at most one. -/
theorem run_count_le (sess : StripeSession) (sched : List Nat) :
    ∀ s : List TState × DB, ordersFor s.2.orders sess.id ≤ 1 →
      ordersFor (run sess sched s).2.orders sess.id ≤ 1 := by
  induction sched with
  | nil => intro s h; exact h
  | cons i rest ih =>
    intro s h
    exact ih _ (stepThread_count_le sess s.2 s.1 i h)

/-- Ledger rows are never removed: any atomic step preserves membership. -/
theorem tstep_orders_mono (sess : StripeSession) (db : DB) (t : TState) :
    ∀ o ∈ db.orders, o ∈ (tstep sess db t).2.orders := by
  intro o ho
  cases t with
  | start =>
    simp only [tstep]
    split
    · exact ho
    · split
      · exact ho
      · exact ho
  | checking =>
    simp only [tstep]
    split
    · exact ho
    · exact ho
  | reading => exact ho
  | inserting snap =>
    simp only [tstep]
    split
    · split
      · exact ho
      · exact ho
    · next db1 oid heq =>
      obtain ⟨ho1, -, -⟩ := insertOrder_ok_orders db _ db1 oid heq
      rw [ho1]
      exact List.mem_append_left _ ho
  | clearing oid => exact ho
  | done r => exact ho

/-- Thread coherence is monotone in the set of ledger rows. -/
theorem threadOK_mono (sess : StripeSession) {db db2 : DB}
    (hsub : ∀ o ∈ db.orders, o ∈ db2.orders) (t : TState)
    (h : ThreadOK sess db t) : ThreadOK sess db2 t := by
  cases t with
  | clearing oid =>
    obtain ⟨o, ho, h1, h2⟩ := h
    exact ⟨o, hsub o ho, h1, h2⟩
  | done r =>
    intro k hk
    obtain ⟨o, ho, h1, h2⟩ := h k hk
    exact ⟨o, hsub o ho, h1, h2⟩
  | start => trivial
  | checking => trivial
  | reading => trivial
  | inserting snap => trivial

/-- A finished call whose response carries no order id is coherent. -/
theorem threadOK_done_none (sess : StripeSession) (db : DB)
    (r : ConfirmResult) (hr : orderIdOf r = none) :
    ThreadOK sess db (.done r) := by
  intro k hk
  rw [hr] at hk
  cases hk

/-- The stepped thread stays coherent with the stepped ledger. -/
theorem tstep_threadOK (sess : StripeSession) (db : DB) (t : TState)
    (ht : ThreadOK sess db t) :
    ThreadOK sess (tstep sess db t).2 (tstep sess db t).1 := by
  cases t with
  | start =>
    simp only [tstep]
    split
    · exact threadOK_done_none sess db _ rfl
    · split
      · exact threadOK_done_none sess db _ rfl
      · trivial
  | checking =>
    simp only [tstep]
    split
    · next o hfind =>
      intro k hk
      simp only [orderIdOf, Option.some.injEq] at hk
      refine ⟨o, List.mem_of_find?_eq_some hfind, ?_, hk⟩
      have := List.find?_some hfind
      simpa [beq_iff_eq] using this
    · trivial
  | reading => trivial
  | inserting snap =>
    simp only [tstep]
    split
    · split
      · exact threadOK_done_none sess db _ rfl
      · exact threadOK_done_none sess db _ rfl
    · next db1 oid heq =>
      obtain ⟨ho1, hk1, -⟩ := insertOrder_ok_orders db _ db1 oid heq
      refine ⟨{ buildOrderRow sess snap with id := db.nextId }, ?_, rfl, ?_⟩
      · rw [ho1]
        exact List.mem_append_right _ (List.mem_singleton_self _)
      · rw [hk1]
  | clearing oid =>
    obtain ⟨o, ho, h1, h2⟩ := ht
    intro k hk
    simp only [orderIdOf, Option.some.injEq] at hk
    exact ⟨o, ho, h1, by rw [h2, hk]⟩
  | done r => exact ht

/-- Stepping any one thread of the pool preserves the invariant. -/
theorem stepThread_inv (sess : StripeSession) (db : DB) (ts : List TState)
    (i : Nat) (h : Inv sess db ts) :
    Inv sess (stepThread sess db ts i).2 (stepThread sess db ts i).1 := by
  unfold stepThread
  split
  · exact h
  · next t hget =>
    have htmem : t ∈ ts := List.get?_mem hget
    refine ⟨tstep_count_le sess db t h.1, ?_⟩
    intro x hx
    rcases List.mem_or_eq_of_mem_set hx with hx | rfl
    · exact threadOK_mono sess (tstep_orders_mono sess db t) x (h.2 x hx)
    · exact tstep_threadOK sess db t (h.2 t htmem)

/-- Any interleaving of any pool preserves the invariant. -/
theorem run_inv (sess : StripeSession) (sched : List Nat) :
    ∀ s : List TState × DB, Inv sess s.2 s.1 →
      Inv sess (run sess sched s).2 (run sess sched s).1 := by
  induction sched with
  | nil => intro s h; exact h
  | cons i rest ih =>
    intro s h
    exact ih _ (stepThread_inv sess s.2 s.1 i h)

/-- A list with at most one element satisfying a predicate has equal such
members. -/
theorem countP_le_one_unique {α : Type} (p : α → Bool) (l : List α)
    (h : l.countP p ≤ 1) (a : α) (ha : a ∈ l) (hpa : p a = true)
    (b : α) (hb : b ∈ l) (hpb : p b = true) : a = b := by
  rw [List.countP_eq_length_filter] at h
  have ha2 : a ∈ l.filter p := List.mem_filter.mpr ⟨ha, hpa⟩
  have hb2 : b ∈ l.filter p := List.mem_filter.mpr ⟨hb, hpb⟩
  cases hl : l.filter p with
  | nil => rw [hl] at ha2; cases ha2
  | cons x xs =>
    rw [hl] at ha2 hb2 h
    have hxs : xs = [] := by
      simp only [List.length_cons] at h
      exact List.length_eq_zero.mp (by omega)
    subst hxs
    have ha3 := List.mem_singleton.mp ha2
    have hb3 := List.mem_singleton.mp hb2
    rw [ha3, hb3]

/-- A returned id comes from a finished thread whose response carries it. -/
theorem returnedIds_spec {ts : List TState} {k : Nat}
    (h : k ∈ returnedIds ts) :
    ∃ r, TState.done r ∈ ts ∧ orderIdOf r = some k := by
  obtain ⟨t, ht, he⟩ := List.mem_filterMap.mp h
  cases t with
  | done r => exact ⟨r, ht, he⟩
  | start => simp at he
  | checking => simp at he
  | reading => simp at he
  | inserting snap => simp at he
  | clearing oid => simp at he

/-! Claims. -/

/-- C3: for every positive base unit price and positive exchange rate, the
line pricing succeeds and yields `round(price * 100)` minor units in the
base currency (mxn) and `round((price / rate) * 100)` in the quote
currency (usd), with half-away-from-zero rounding; the quantities of the
claim (10000 and 588 at price 100 and rate 17) are checked in the witness. -/
theorem priceLine_rounds (p rate : ℚ) (hp : 0 < p) (hr : 0 < rate) :
    buildLineItem "mxn" rate (lineOf p)
      = .ok { quantity := 1, currency := "mxn",
              unit_amount := halfAwayFromZero (p * 100) }
    ∧ buildLineItem "usd" rate (lineOf p)
      = .ok { quantity := 1, currency := "usd",
              unit_amount := halfAwayFromZero ((p / rate) * 100) } := by
  have hip : itemPrice (lineOf p) = p := rfl
  have hne : (p == 0) = false := by
    rw [beq_eq_false_iff_ne]
    exact ne_of_gt hp
  have h100 : (0 : ℚ) ≤ p * 100 := by positivity
  have hq : (0 : ℚ) ≤ (p / rate) * 100 := by positivity
  have hum : (("usd" : String) == "mxn") = false := by decide
  constructor
  · simp [buildLineItem, lineOf, itemPrice, jsQty, hne, halfAway_nonneg _ h100]
  · simp [buildLineItem, lineOf, itemPrice, jsQty, hne, hum, halfAway_nonneg _ hq]

/-- Witness for C3 at the quantities named by the spec: price 100, rate 17,
giving 10000 base minor units and 588 quote minor units. -/
theorem priceLine_rounds_witness :
    (0 : ℚ) < 100 ∧ (0 : ℚ) < 17
    ∧ (buildLineItem "mxn" 17 (lineOf 100)
         = .ok { quantity := 1, currency := "mxn",
                 unit_amount := halfAwayFromZero (100 * 100) }
       ∧ buildLineItem "usd" 17 (lineOf 100)
         = .ok { quantity := 1, currency := "usd",
                 unit_amount := halfAwayFromZero ((100 / 17) * 100) })
    ∧ halfAwayFromZero ((100 : ℚ) * 100) = 10000
    ∧ halfAwayFromZero (((100 : ℚ) / 17) * 100) = 588 :=
  ⟨by norm_num, by norm_num, priceLine_rounds 100 17 (by norm_num) (by norm_num),
   by
    unfold halfAwayFromZero
    rw [if_pos (by norm_num), ratFloor_eq_intFloor, Int.floor_eq_iff]
    constructor <;> norm_num,
   by
    unfold halfAwayFromZero
    rw [if_pos (by norm_num), ratFloor_eq_intFloor, Int.floor_eq_iff]
    constructor <;> norm_num⟩

/-- C4 counterexample: a strictly negative base price is not rejected — the
pricing step accepts it and produces a negative minor-unit amount instead
of failing with InvalidPrice. -/
theorem negative_price_accepted :
    buildLineItem "mxn" 17 (lineOf (-5))
      = .ok { quantity := 1, currency := "mxn", unit_amount := -500 } := by
  have hb : ((-5 : ℚ) == 0) = false := by
    rw [beq_eq_false_iff_ne]; norm_num
  simp [buildLineItem, lineOf, itemPrice, jsQty, hb]
  unfold jsRound
  rw [ratFloor_eq_intFloor, Int.floor_eq_iff]
  constructor <;> norm_num

/-- C4 amended: the pricing step fails with InvalidPrice exactly when the
effective base price is falsy — zero, or missing (absent product or absent
price, both read as 0); strictly negative prices are not rejected. -/
theorem invalid_price_iff (curr : String) (rate : ℚ) (it : CartItem) :
    (buildLineItem curr rate it
       = .error (.invalidPrice (it.product.bind fun p => p.id)))
      ↔ itemPrice it = 0 := by
  unfold buildLineItem
  by_cases h : itemPrice it = 0
  · simp [h]
  · have hb : (itemPrice it == 0) = false := by
      rw [beq_eq_false_iff_ne]; exact h
    simp [hb, h]

/-- C5: confirming a session whose payment status is not `paid` returns the
400 error carrying the observed status and performs no mutation at all:
the datastore is returned unchanged and the only external effect is the
single gateway retrieve — no order insert and no cart deletion. -/
theorem confirm_unpaid_no_mutation (env : Env) (db : DB) (sid : String)
    (sess : StripeSession)
    (hb : env.body_session_id = some sid) (hne : sid.isEmpty = false)
    (hg : env.gateway = .found sess) (hp : sess.payment_status ≠ "paid") :
    confirmOne env db
      = (.notPaid sess.payment_status, db, [.gatewayRetrieve sid])
    ∧ httpStatus (.notPaid sess.payment_status) = 400 := by
  refine ⟨?_, rfl⟩
  simp [confirmOne, hb, hg, strTruthy, hne, hp]

/-- Witness for C5 on a concrete unpaid session. -/
theorem confirm_unpaid_no_mutation_witness :
    w5env.body_session_id = some "cs_w5"
    ∧ ("cs_w5" : String).isEmpty = false
    ∧ w5env.gateway = .found w5sess
    ∧ w5sess.payment_status ≠ "paid"
    ∧ (confirmOne w5env emptyDb
        = (.notPaid "unpaid", emptyDb, [.gatewayRetrieve "cs_w5"])
       ∧ httpStatus (.notPaid "unpaid") = 400) :=
  ⟨rfl, rfl, rfl, by decide,
   confirm_unpaid_no_mutation w5env emptyDb "cs_w5" w5sess rfl rfl rfl (by decide)⟩

/-- C6: when the ledger already holds an order for the session, confirm
returns the alreadyProcessed success shape carrying that order id
immediately: the datastore is unchanged and the effects stop after the
gateway retrieve and the ledger query — no cart read, no insert attempt,
no cart deletion. -/
theorem confirm_idempotent_short_circuit (env : Env) (db : DB) (sid : String)
    (sess : StripeSession) (o : OrderRow)
    (hb : env.body_session_id = some sid) (hne : sid.isEmpty = false)
    (hg : env.gateway = .found sess) (hp : sess.payment_status = "paid")
    (hot : strTruthy (ownerTypeOf sess) = true)
    (hoi : strTruthy (ownerIdOf sess) = true)
    (hf : findOrder db.orders sess.id = some o) :
    confirmOne env db
      = (.alreadyProcessed o.id, db,
         [.gatewayRetrieve sid, .ordersQuery sess.id])
    ∧ alreadyProcessedFlag (.alreadyProcessed o.id) = true
    ∧ orderIdOf (.alreadyProcessed o.id) = some o.id := by
  refine ⟨?_, rfl, rfl⟩
  simp [confirmOne, hb, hg, strTruthy_some, hne, hp, hot, hoi, hf]

/-- Witness for C6: the ledger already holds order 7 for `cs_paid`. -/
theorem confirm_idempotent_short_circuit_witness :
    wPaidEnv.body_session_id = some "cs_paid"
    ∧ ("cs_paid" : String).isEmpty = false
    ∧ wPaidEnv.gateway = .found wPaidSess
    ∧ wPaidSess.payment_status = "paid"
    ∧ strTruthy (ownerTypeOf wPaidSess) = true
    ∧ strTruthy (ownerIdOf wPaidSess) = true
    ∧ findOrder wDbExisting.orders wPaidSess.id = some wOrderRow
    ∧ (confirmOne wPaidEnv wDbExisting
        = (.alreadyProcessed 7, wDbExisting,
           [.gatewayRetrieve "cs_paid", .ordersQuery "cs_paid"])
       ∧ alreadyProcessedFlag (.alreadyProcessed 7) = true
       ∧ orderIdOf (.alreadyProcessed 7) = some 7) :=
  ⟨rfl, rfl, rfl, rfl, rfl, rfl, rfl,
   confirm_idempotent_short_circuit wPaidEnv wDbExisting "cs_paid" wPaidSess
     wOrderRow rfl rfl rfl rfl rfl rfl rfl⟩

/-- C7 counterexample: when the gateway rejects the posted session id the
handler returns the generic internal error (HTTP 500), byte-for-byte the
same response as for an unreachable gateway — not a distinct
UpstreamStateError carrying observed gateway state, contrary to the claim. -/
theorem session_not_found_counterexample :
    confirmOne wRejectEnv emptyDb
      = (.internalError, emptyDb, [.gatewayRetrieve "cs_gone"])
    ∧ confirmOne wDownEnv emptyDb
      = (.internalError, emptyDb, [.gatewayRetrieve "cs_gone"])
    ∧ (confirmOne wRejectEnv emptyDb).1 = (confirmOne wDownEnv emptyDb).1
    ∧ httpStatus .internalError = 500 :=
  ⟨rfl, rfl, rfl, rfl⟩

/-- C7 amended: a session id the gateway rejects makes the retrieve throw,
and the surrounding catch surfaces the generic InternalError (HTTP 500) —
the same category and value as an unreachable gateway; no local mutation
occurs.  Only the unpaid-session and missing-owner-metadata failures are
surfaced as distinct 400-class errors with observed state attached. -/
theorem session_not_found_internal (env : Env) (db : DB) (sid : String)
    (hb : env.body_session_id = some sid) (hne : sid.isEmpty = false)
    (hg : env.gateway = .rejectedId ∨ env.gateway = .unreachable) :
    confirmOne env db = (.internalError, db, [.gatewayRetrieve sid])
    ∧ httpStatus .internalError = 500 := by
  refine ⟨?_, rfl⟩
  rcases hg with hg | hg <;> simp [confirmOne, hb, hg, strTruthy, hne]

/-- Witness for the amended C7 at a concrete rejected id. -/
theorem session_not_found_internal_witness :
    wRejectEnv.body_session_id = some "cs_gone"
    ∧ ("cs_gone" : String).isEmpty = false
    ∧ (wRejectEnv.gateway = .rejectedId ∨ wRejectEnv.gateway = .unreachable)
    ∧ (confirmOne wRejectEnv emptyDb
         = (.internalError, emptyDb, [.gatewayRetrieve "cs_gone"])
       ∧ httpStatus .internalError = 500) :=
  ⟨rfl, rfl, Or.inl rfl,
   session_not_found_internal wRejectEnv emptyDb "cs_gone" rfl rfl (Or.inl rfl)⟩

/-- C10: a missing currency field in the session metadata never triggers
the missing-owner-metadata failure (only a falsy ownerType or ownerId
does), and the currency recorded on any order built for the session falls
back first to the gateway currency of the session itself and then to the base
currency mxn, lowercased. -/
theorem currency_fallback (env : Env) (db : DB) (sid : String)
    (sess : StripeSession) (m : SessionMetadata)
    (hb : env.body_session_id = some sid) (hne : sid.isEmpty = false)
    (hg : env.gateway = .found sess) (hp : sess.payment_status = "paid")
    (hm : sess.metadata = some m) (hmc : m.currency = none)
    (hot : strTruthy m.ownerType = true) (hoi : strTruthy m.ownerId = true) :
    (confirmOne env db).1 ≠ .missingOwnerMetadata
    ∧ ∀ lines, (buildOrderRow sess lines).currency
        = (match sess.currency with
           | some c => if c.isEmpty then jsToLower "mxn" else jsToLower c
           | none => jsToLower "mxn") := by
  have hot2 : strTruthy (ownerTypeOf sess) = true := by
    simp [ownerTypeOf, hm, hot]
  have hoi2 : strTruthy (ownerIdOf sess) = true := by
    simp [ownerIdOf, hm, hoi]
  constructor
  · simp only [confirmOne, hb, hg, strTruthy_some, hne, Bool.not_false,
      Bool.false_eq_true, if_false, hp, hot2, hoi2]
    simp only [bne_self_eq_false, Bool.false_eq_true, if_false,
      Bool.and_self, Bool.not_true, if_true]
    split
    · simp
    · split
      · simp
      · split
        · split <;> simp
        · split
          · split <;> simp
          · simp
  · intro lines
    show currencyOf sess = _
    unfold currencyOf
    rw [hm]
    simp only [Option.some_bind, hmc]
    cases hc : sess.currency with
    | none => simp [jsOr, jsOrD, strTruthy]
    | some c =>
      by_cases hce : c.isEmpty
      · simp [jsOr, jsOrD, strTruthy, hce]
      · simp [jsOr, jsOrD, strTruthy, hce]

/-- Witness for C10: metadata without currency, gateway currency usd. -/
theorem currency_fallback_witness :
    w10env.body_session_id = some "cs_nocur"
    ∧ ("cs_nocur" : String).isEmpty = false
    ∧ w10env.gateway = .found w10sess
    ∧ w10sess.payment_status = "paid"
    ∧ w10sess.metadata = some { ownerType := some "user", ownerId := some "u1"
                                currency := none }
    ∧ ((confirmOne w10env emptyDb).1 ≠ .missingOwnerMetadata
       ∧ ∀ lines, (buildOrderRow w10sess lines).currency
           = (match w10sess.currency with
              | some c => if c.isEmpty then jsToLower "mxn" else jsToLower c
              | none => jsToLower "mxn")) :=
  ⟨rfl, rfl, rfl, rfl, rfl,
   currency_fallback w10env emptyDb "cs_nocur" w10sess
     { ownerType := some "user", ownerId := some "u1", currency := none }
     rfl rfl rfl rfl rfl rfl rfl rfl⟩

/-- C9: confirming a paid session with valid owner metadata whose owner has
no cart lines does not fail: an order with amount 0 and an empty line-item
list is inserted, and the (already empty) cart of the owner is still
cleared — an empty cart is only rejected at session creation, not here. -/
theorem confirm_empty_cart_creates (env : Env) (db : DB) (sid : String)
    (sess : StripeSession)
    (hb : env.body_session_id = some sid) (hne : sid.isEmpty = false)
    (hg : env.gateway = .found sess) (hp : sess.payment_status = "paid")
    (hot : strTruthy (ownerTypeOf sess) = true)
    (hoi : strTruthy (ownerIdOf sess) = true)
    (hf : findOrder db.orders sess.id = none)
    (hcf : env.cartReadFault = none) (hif : env.insertFault = none)
    (hempty : readCart db.cart ((ownerTypeOf sess).getD "")
        ((ownerIdOf sess).getD "") = []) :
    (confirmOne env db).1 = .created db.nextId
    ∧ (confirmOne env db).2.1.orders
        = db.orders ++ [{ buildOrderRow sess [] with id := db.nextId }]
    ∧ (buildOrderRow sess []).amount = 0
    ∧ (buildOrderRow sess []).items = []
    ∧ (confirmOne env db).2.1.cart
        = clearCart db.cart ((ownerTypeOf sess).getD "") ((ownerIdOf sess).getD "")
    ∧ (confirmOne env db).2.2
        = [.gatewayRetrieve sid, .ordersQuery sess.id,
           .cartRead ((ownerTypeOf sess).getD "") ((ownerIdOf sess).getD ""),
           .orderInsert sess.id,
           .cartDelete ((ownerTypeOf sess).getD "") ((ownerIdOf sess).getD "")] := by
  rw [confirmOne_created_eq env db sid sess hb hne hg hp hot hoi hf hcf hif, hempty]
  exact ⟨rfl, rfl, rfl, rfl, rfl, rfl⟩

/-- Witness for C9: the paid session confirmed against an empty cart. -/
theorem confirm_empty_cart_creates_witness :
    wPaidEnv.body_session_id = some "cs_paid"
    ∧ ("cs_paid" : String).isEmpty = false
    ∧ wPaidEnv.gateway = .found wPaidSess
    ∧ wPaidSess.payment_status = "paid"
    ∧ findOrder emptyDb.orders wPaidSess.id = none
    ∧ readCart emptyDb.cart ((ownerTypeOf wPaidSess).getD "")
        ((ownerIdOf wPaidSess).getD "") = []
    ∧ ((confirmOne wPaidEnv emptyDb).1 = .created 1
       ∧ (confirmOne wPaidEnv emptyDb).2.1.orders
           = [{ buildOrderRow wPaidSess [] with id := 1 }]
       ∧ (buildOrderRow wPaidSess []).amount = 0
       ∧ (buildOrderRow wPaidSess []).items = []) :=
  ⟨rfl, rfl, rfl, rfl, rfl, rfl,
   by
    have h := confirm_empty_cart_creates wPaidEnv emptyDb "cs_paid" wPaidSess
      rfl rfl rfl rfl rfl rfl rfl rfl rfl rfl
    exact ⟨h.1, h.2.1, h.2.2.1, h.2.2.2.1⟩⟩

/-- C8: on the happy path, the base amount of the created order is the sum over
the cart lines read in step 5 of unit price times quantity (for lines with
a present, positive quantity), and its line items are exactly the per-line
snapshots — one entry per cart line, preserving the price and
quantity of each line.  The concrete instance of the claim (lines 50x2 and 30x1 giving
130) is checked in the witness. -/
theorem confirm_amount_snapshot (env : Env) (db : DB) (sid : String)
    (sess : StripeSession)
    (hb : env.body_session_id = some sid) (hne : sid.isEmpty = false)
    (hg : env.gateway = .found sess) (hp : sess.payment_status = "paid")
    (hot : strTruthy (ownerTypeOf sess) = true)
    (hoi : strTruthy (ownerIdOf sess) = true)
    (hf : findOrder db.orders sess.id = none)
    (hcf : env.cartReadFault = none) (hif : env.insertFault = none)
    (hq : ∀ it ∈ readCart db.cart ((ownerTypeOf sess).getD "")
        ((ownerIdOf sess).getD ""), it.quantity.getD 0 ≠ 0) :
    (confirmOne env db).1 = .created db.nextId
    ∧ ∃ r, (confirmOne env db).2.1.orders = db.orders ++ [r]
        ∧ r.amount
            = ((readCart db.cart ((ownerTypeOf sess).getD "")
                 ((ownerIdOf sess).getD "")).map
                fun it => itemPrice it * ((it.quantity.getD 1 : Nat) : ℚ)).sum
        ∧ r.items
            = (readCart db.cart ((ownerTypeOf sess).getD "")
                ((ownerIdOf sess).getD "")).map snapshotItem
        ∧ r.items.length
            = (readCart db.cart ((ownerTypeOf sess).getD "")
                ((ownerIdOf sess).getD "")).length
        ∧ ∀ it ∈ readCart db.cart ((ownerTypeOf sess).getD "")
            ((ownerIdOf sess).getD ""),
            (snapshotItem it).price = (it.product.bind fun p => p.price)
            ∧ (snapshotItem it).quantity = it.quantity := by
  rw [confirmOne_created_eq env db sid sess hb hne hg hp hot hoi hf hcf hif]
  refine ⟨rfl, ⟨_, rfl, ?_, rfl, by simp [buildOrderRow], fun it _ => ⟨rfl, rfl⟩⟩⟩
  show amountOf _ = _
  rw [amountOf_eq_sum]
  congr 1
  exact List.map_congr_left fun it hit => by rw [jsQty_getD (hq it hit)]

/-- Witness for C8: cart lines 50x2 and 30x1 produce an order of amount
130 whose two line items match the cart lines. -/
theorem confirm_amount_snapshot_witness :
    wPaidEnv.body_session_id = some "cs_paid"
    ∧ findOrder w8db.orders wPaidSess.id = none
    ∧ (∀ it ∈ readCart w8db.cart ((ownerTypeOf wPaidSess).getD "")
        ((ownerIdOf wPaidSess).getD ""), it.quantity.getD 0 ≠ 0)
    ∧ ((confirmOne wPaidEnv w8db).1 = .created 1
       ∧ ∃ r, (confirmOne wPaidEnv w8db).2.1.orders = [] ++ [r]
           ∧ r.amount
               = ((readCart w8db.cart ((ownerTypeOf wPaidSess).getD "")
                    ((ownerIdOf wPaidSess).getD "")).map
                   fun it => itemPrice it * ((it.quantity.getD 1 : Nat) : ℚ)).sum
           ∧ r.items
               = (readCart w8db.cart ((ownerTypeOf wPaidSess).getD "")
                   ((ownerIdOf wPaidSess).getD "")).map snapshotItem
           ∧ r.items.length
               = (readCart w8db.cart ((ownerTypeOf wPaidSess).getD "")
                   ((ownerIdOf wPaidSess).getD "")).length
           ∧ ∀ it ∈ readCart w8db.cart ((ownerTypeOf wPaidSess).getD "")
               ((ownerIdOf wPaidSess).getD ""),
               (snapshotItem it).price = (it.product.bind fun p => p.price)
               ∧ (snapshotItem it).quantity = it.quantity)
    ∧ ((readCart w8db.cart ((ownerTypeOf wPaidSess).getD "")
         ((ownerIdOf wPaidSess).getD "")).map
        fun it => itemPrice it * ((it.quantity.getD 1 : Nat) : ℚ)).sum = 130
    ∧ (readCart w8db.cart ((ownerTypeOf wPaidSess).getD "")
        ((ownerIdOf wPaidSess).getD "")).length = 2 :=
  ⟨rfl, rfl, by decide,
   confirm_amount_snapshot wPaidEnv w8db "cs_paid" wPaidSess
     rfl rfl rfl rfl rfl rfl rfl rfl rfl (by decide),
   by
    have hc : readCart w8db.cart ((ownerTypeOf wPaidSess).getD "")
        ((ownerIdOf wPaidSess).getD "") = [w8item1, w8item2] := rfl
    rw [hc]
    norm_num [w8item1, w8item2, itemPrice],
   rfl⟩

/-- The duplicate-key message of the ledger passes the check in the source. -/
theorem isDupMsg_dupKeyMsg : isDupMsg dupKeyMsg = true := by decide

/-- C1: under any interleaving of any number of confirm calls for the same
paid session — including calls that both pass the idempotency check before
either inserts — the ledger never holds more than one order row for that
session id: the atomic uniqueness constraint makes every insert after the
first fail with the duplicate-key error, and a call whose insert fails on
that constraint finishes with the raceLost response, which is the
success-shaped `alreadyProcessed: true` reply (HTTP 200), not an error. -/
theorem confirm_unique_and_race (sess : StripeSession) (sched : List Nat)
    (s : List TState × DB) (db2 : DB) (snap : List CartItem)
    (h1 : ordersFor s.2.orders sess.id ≤ 1)
    (h2 : ∃ o ∈ db2.orders, o.stripe_session_id = sess.id) :
    ordersFor (run sess sched s).2.orders sess.id ≤ 1
    ∧ insertOrder db2 (buildOrderRow sess snap) = .error dupKeyMsg
    ∧ tstep sess db2 (.inserting snap) = (.done .raceLost, db2)
    ∧ httpStatus .raceLost = 200
    ∧ alreadyProcessedFlag .raceLost = true := by
  have hany : (db2.orders.any fun r =>
      r.stripe_session_id == (buildOrderRow sess snap).stripe_session_id)
        = true := by
    rw [List.any_eq_true]
    obtain ⟨o, ho, hsid⟩ := h2
    refine ⟨o, ho, ?_⟩
    rw [buildOrderRow_sid]
    exact beq_iff_eq.mpr hsid
  have herr : insertOrder db2 (buildOrderRow sess snap) = .error dupKeyMsg := by
    simp [insertOrder, hany]
  refine ⟨run_count_le sess sched s h1, herr, ?_, rfl, rfl⟩
  simp [tstep, herr, isDupMsg_dupKeyMsg]

/-- Witness for C1: a two-thread race schedule on an empty ledger, and a
losing insert against a ledger already holding the winning row. -/
theorem confirm_unique_and_race_witness :
    ordersFor (([TState.start, TState.start], emptyDb) : List TState × DB).2.orders
        wPaidSess.id ≤ 1
    ∧ (∃ o ∈ wDbExisting.orders, o.stripe_session_id = wPaidSess.id)
    ∧ (ordersFor (run wPaidSess [0, 1, 0, 1, 0, 1, 0, 1, 0]
          ([TState.start, TState.start], emptyDb)).2.orders wPaidSess.id ≤ 1
       ∧ insertOrder wDbExisting (buildOrderRow wPaidSess []) = .error dupKeyMsg
       ∧ tstep wPaidSess wDbExisting (.inserting []) = (.done .raceLost, wDbExisting)
       ∧ httpStatus .raceLost = 200
       ∧ alreadyProcessedFlag .raceLost = true) :=
  ⟨by decide, by decide,
   confirm_unique_and_race wPaidSess [0, 1, 0, 1, 0, 1, 0, 1, 0]
     ([TState.start, TState.start], emptyDb) wDbExisting []
     (by decide) (by decide)⟩

/-- C2 counterexample: two confirms race on a fresh session; both pass the
idempotency check, the winner returns `orderCreated` with order id 1, but
the duplicate-key reply of the loser is the bare `alreadyProcessed: true`
success (HTTP 200) carrying no order id at all — so not every successful
call returns the order id of the winner, contrary to the claim. -/
theorem same_orderId_counterexample :
    (run wPaidSess [0, 1, 0, 1, 0, 1, 0, 1, 0]
        ([TState.start, TState.start], emptyDb)).1
      = [.done (.created 1), .done .raceLost]
    ∧ orderIdOf .raceLost = none
    ∧ httpStatus .raceLost = 200
    ∧ alreadyProcessedFlag .raceLost = true :=
  ⟨by decide, rfl, rfl, rfl⟩

/-- C2 amended: at most one order row exists per session, and every call
that does return an order id — whether through the idempotency check or
through a successful insert — returns the id of that unique winning row,
so all returned ids agree; a call that loses the insert race, however,
returns the alreadyProcessed success shape with no order id. -/
theorem confirm_returned_ids_agree (sess : StripeSession) (sched : List Nat)
    (n : Nat) (db : DB) (h : ordersFor db.orders sess.id ≤ 1) :
    (∀ k1 ∈ returnedIds (run sess sched (List.replicate n .start, db)).1,
     ∀ k2 ∈ returnedIds (run sess sched (List.replicate n .start, db)).1,
       k1 = k2)
    ∧ orderIdOf .raceLost = none := by
  refine ⟨?_, rfl⟩
  have hinv0 : Inv sess db (List.replicate n .start) := by
    refine ⟨h, ?_⟩
    intro t ht
    rw [List.eq_of_mem_replicate ht]
    trivial
  have hinv := run_inv sess sched (List.replicate n .start, db) hinv0
  intro k1 hk1 k2 hk2
  obtain ⟨r1, ht1, he1⟩ := returnedIds_spec hk1
  obtain ⟨r2, ht2, he2⟩ := returnedIds_spec hk2
  obtain ⟨o1, ho1, hs1, hid1⟩ := hinv.2 _ ht1 k1 he1
  obtain ⟨o2, ho2, hs2, hid2⟩ := hinv.2 _ ht2 k2 he2
  have heq : o1 = o2 :=
    countP_le_one_unique _ _ hinv.1 o1 ho1 (beq_iff_eq.mpr hs1)
      o2 ho2 (beq_iff_eq.mpr hs2)
  rw [← hid1, ← hid2, heq]

/-- Witness for the amended C2: the two-thread race schedule. -/
theorem confirm_returned_ids_agree_witness :
    ordersFor emptyDb.orders wPaidSess.id ≤ 1
    ∧ ((∀ k1 ∈ returnedIds (run wPaidSess [0, 1, 0, 1, 0, 1, 0, 1, 0]
          (List.replicate 2 .start, emptyDb)).1,
        ∀ k2 ∈ returnedIds (run wPaidSess [0, 1, 0, 1, 0, 1, 0, 1, 0]
          (List.replicate 2 .start, emptyDb)).1, k1 = k2)
       ∧ orderIdOf .raceLost = none) :=
  ⟨by decide,
   confirm_returned_ids_agree wPaidSess [0, 1, 0, 1, 0, 1, 0, 1, 0] 2 emptyDb
     (by decide)⟩

end StripeBackend
